import Mathlib

/-!
Shallow embedding of the pykada SDK core (token manager, request manager,
pagination iterator, and the access-control parameter/payload builders),
translated from the Python source, together with theorems settling the
specification claims about them.

Python dictionaries are modelled as association lists with unique keys and
insertion order preserved; raised exceptions are modelled with Except.
-/

/-- Lookup in a Python-style dict modelled as an association list
(dict.get(k) / dict[k]). -/
def dictGet {β : Type} (entries : List (String × β)) (k : String) : Option β :=
  (entries.find? (fun p => p.1 == k)).map Prod.snd

/-- Python dict assignment d[k] = v: replaces the value in place if the key
exists, otherwise appends the new key at the end (insertion order). -/
def dictInsert {β : Type} (entries : List (String × β)) (k : String) (v : β) :
    List (String × β) :=
  if entries.any (fun p => p.1 == k) then
    entries.map (fun p => if p.1 == k then (k, v) else p)
  else entries ++ [(k, v)]

/-- Python dict merge as in the expression that spreads a into b,
keys of b overriding keys of a. -/
def dictMerge {β : Type} (a b : List (String × β)) : List (String × β) :=
  b.foldl (fun acc p => dictInsert acc p.1 p.2) a

/-- A JSON-ish value stored in a page response returned by a paginated
function: null, a string, or a list of items. -/
inductive PageVal (α : Type) where
  | vNull : PageVal α
  | vStr (s : String) : PageVal α
  | vList (xs : List α) : PageVal α
  deriving DecidableEq, Repr

/-- A value returned by the page-fetching function: either a dict
(association list) or some non-dict value, whose content the iterator never
inspects. -/
inductive PageResponse (α : Type) where
  | dict (entries : List (String × PageVal α)) : PageResponse α
  | nonDict : PageResponse α
  deriving DecidableEq, Repr

/-- Python truthiness test used by the iterator on the key arguments:
None and the empty string are falsy. -/
def falsyKey : Option String → Bool
  | none => true
  | some s => s == ""

/-- Test whether the literal substring token occurs in a key, as the Python
membership test on strings does (helpers.py line 306). -/
def containsTokenSubstring (s : String) : Bool :=
  decide ("token".toList <:+: s.toList)

/-- Cursor-key inference step of iterate_paginated_results
(helpers.py lines 304-308): when next_token_key is falsy and the response
has keys, the unique key containing the substring token becomes the cursor
key; otherwise the key argument is left unchanged. -/
def inferNextTokenKey (response_keys : List String)
    (next_token_key : Option String) : Option String :=
  if falsyKey next_token_key && !response_keys.isEmpty then
    match response_keys.filter containsTokenSubstring with
    | [k] => some k
    | _ => next_token_key
  else next_token_key

/-- Items-key inference step of iterate_paginated_results
(helpers.py lines 314-317): attempted only when items_key is falsy and the
response has exactly two keys; the unique key not containing the substring
token becomes the items key; otherwise the key argument is left
unchanged. -/
def inferItemsKey (response_keys : List String)
    (items_key : Option String) : Option String :=
  if falsyKey items_key && response_keys.length == 2 then
    match response_keys.filter (fun s => !containsTokenSubstring s) with
    | [k] => some k
    | _ => items_key
  else items_key

/-- Errors raised inside the pagination loop. inferError is the ValueError
raised when a key is still falsy after inference (helpers.py lines 310-312
and 319-321); typeError models iterating a non-list items value; outOfPages
marks that the loop asked the page function for a page beyond the supplied
trace of responses. -/
inductive IterErr where
  | inferError : IterErr
  | typeError : IterErr
  | outOfPages : IterErr
  deriving DecidableEq, Repr

/-- The pagination loop of iterate_paginated_results (helpers.py lines
285-341, identical to verkada_requests.py lines 227-283), run against a
trace of page responses: the n-th element of the list is what the n-th call
of paginated_func returns.  Each round: a non-dict response silently ends
the iteration; otherwise the two keys are inferred if falsy and a ValueError
is raised if either is still falsy; the items under the items key are
yielded in order; the loop ends when the cursor key is absent or null and
otherwise fetches the next page (the possibly inferred keys persisting, as
they are locals of the Python generator). -/
def iterate_paginated_results {α : Type} (items_key next_token_key : Option String) :
    List (PageResponse α) → Except IterErr (List α)
  | [] => .error .outOfPages
  | PageResponse.nonDict :: _ => .ok []
  | PageResponse.dict entries :: rest =>
    let response_keys := entries.map Prod.fst
    let next_token_key := inferNextTokenKey response_keys next_token_key
    if falsyKey next_token_key then .error .inferError
    else
      let items_key := inferItemsKey response_keys items_key
      if falsyKey items_key then .error .inferError
      else
        let items : Except IterErr (List α) :=
          match dictGet entries (items_key.getD "") with
          | none => .ok []
          | some (PageVal.vList xs) => .ok xs
          | some _ => .error .typeError
        match items with
        | .error e => .error e
        | .ok xs =>
          match dictGet entries (next_token_key.getD "") with
          | none => .ok xs
          | some PageVal.vNull => .ok xs
          | some _ =>
            (iterate_paginated_results items_key next_token_key rest).map
              (fun ys => xs ++ ys)

/-- The items list a page contributes under a given items key: the empty
list when the key is absent, the stored list when it maps to a list, and
none (ill-typed page) when it maps to a non-list value or the response is
not a dict. -/
def pageItems {α : Type} (items_key : String) : PageResponse α → Option (List α)
  | PageResponse.dict entries =>
    match dictGet entries items_key with
    | none => some []
    | some (PageVal.vList xs) => some xs
    | some _ => none
  | PageResponse.nonDict => none

/-- Whether a page response ends the iteration under a given cursor key:
true when the cursor key is absent or maps to null (and, trivially, for a
non-dict response). -/
def pageEnds {α : Type} (next_token_key : String) : PageResponse α → Bool
  | PageResponse.dict entries =>
    match dictGet entries next_token_key with
    | none => true
    | some PageVal.vNull => true
    | some _ => false
  | PageResponse.nonDict => true

example : iterate_paginated_results (α := Nat) (some "data") (some "next_page_token")
    [PageResponse.dict [("data", PageVal.vList [1, 2]), ("next_page_token", PageVal.vStr "t")],
     PageResponse.dict [("data", PageVal.vList [3]), ("next_page_token", PageVal.vNull)]]
    = .ok [1, 2, 3] := rfl

example : iterate_paginated_results (α := Nat) none (some "cursor")
    [PageResponse.dict [("cursor", PageVal.vNull), ("items", PageVal.vList [1, 2])]]
    = .error .inferError := rfl

example : iterate_paginated_results (α := Nat) none none
    [PageResponse.dict [("next_page_token", PageVal.vNull), ("items", PageVal.vList [1, 2])]]
    = .ok [1, 2] := rfl

theorem falsyKey_some_of_ne (k : String) (h : k ≠ "") : falsyKey (some k) = false := by
  simp [falsyKey, h]

theorem inferNextTokenKey_supplied (response_keys : List String) (tk : String)
    (h : tk ≠ "") : inferNextTokenKey response_keys (some tk) = some tk := by
  simp [inferNextTokenKey, falsyKey_some_of_ne tk h]

theorem inferItemsKey_supplied (response_keys : List String) (ik : String)
    (h : ik ≠ "") : inferItemsKey response_keys (some ik) = some ik := by
  simp [inferItemsKey, falsyKey_some_of_ne ik h]

/-- Splitting lemma for the pagination loop: a run over a front of
well-typed, non-terminal dict pages followed by any remaining trace yields
the items of the front followed by whatever the remaining trace produces. -/
theorem iterate_append {α : Type} (ik tk : String) (hik : ik ≠ "") (htk : tk ≠ "")
    (front rest : List (PageResponse α))
    (hwf : ∀ p ∈ front, (pageItems ik p).isSome = true)
    (hcont : ∀ p ∈ front, pageEnds tk p = false) :
    iterate_paginated_results (some ik) (some tk) (front ++ rest)
      = (iterate_paginated_results (some ik) (some tk) rest).map
          (fun ys => (front.map (fun p => (pageItems ik p).getD [])).flatten ++ ys) := by
  induction front with
  | nil =>
    cases h : iterate_paginated_results (some ik) (some tk) rest <;>
      simp [Except.map, h]
  | cons p front ih =>
    have hwfp := hwf p (by simp)
    have hcontp := hcont p (by simp)
    have ih2 := ih (fun q hq => hwf q (by simp [hq])) (fun q hq => hcont q (by simp [hq]))
    cases p with
    | nonDict => simp [pageItems] at hwfp
    | dict entries =>
      rw [List.cons_append]
      cases hgi : dictGet entries ik with
      | none =>
        cases hgt : dictGet entries tk with
        | none => simp [pageEnds, hgt] at hcontp
        | some v =>
          cases v with
          | vNull => simp [pageEnds, hgt] at hcontp
          | vStr s =>
            simp only [iterate_paginated_results,
              inferNextTokenKey_supplied _ tk htk, inferItemsKey_supplied _ ik hik,
              falsyKey_some_of_ne tk htk, falsyKey_some_of_ne ik hik,
              Bool.false_eq_true, if_false, Option.getD_some, hgi, hgt]
            rw [ih2]
            cases h : iterate_paginated_results (some ik) (some tk) rest <;>
              simp [Except.map, h, pageItems, hgi]
          | vList ys =>
            simp only [iterate_paginated_results,
              inferNextTokenKey_supplied _ tk htk, inferItemsKey_supplied _ ik hik,
              falsyKey_some_of_ne tk htk, falsyKey_some_of_ne ik hik,
              Bool.false_eq_true, if_false, Option.getD_some, hgi, hgt]
            rw [ih2]
            cases h : iterate_paginated_results (some ik) (some tk) rest <;>
              simp [Except.map, h, pageItems, hgi]
      | some v =>
        cases v with
        | vNull => simp [pageItems, hgi] at hwfp
        | vStr s => simp [pageItems, hgi] at hwfp
        | vList xs =>
          cases hgt : dictGet entries tk with
          | none => simp [pageEnds, hgt] at hcontp
          | some w =>
            cases w with
            | vNull => simp [pageEnds, hgt] at hcontp
            | vStr s =>
              simp only [iterate_paginated_results,
                inferNextTokenKey_supplied _ tk htk, inferItemsKey_supplied _ ik hik,
                falsyKey_some_of_ne tk htk, falsyKey_some_of_ne ik hik,
                Bool.false_eq_true, if_false, Option.getD_some, hgi, hgt]
              rw [ih2]
              cases h : iterate_paginated_results (some ik) (some tk) rest <;>
                simp [Except.map, h, pageItems, hgi]
            | vList zs =>
              simp only [iterate_paginated_results,
                inferNextTokenKey_supplied _ tk htk, inferItemsKey_supplied _ ik hik,
                falsyKey_some_of_ne tk htk, falsyKey_some_of_ne ik hik,
                Bool.false_eq_true, if_false, Option.getD_some, hgi, hgt]
              rw [ih2]
              cases h : iterate_paginated_results (some ik) (some tk) rest <;>
                simp [Except.map, h, pageItems, hgi]

/-- Evaluation of the loop on a single well-typed terminal dict page: its
items are yielded and the iteration ends normally. -/
theorem iterate_single_terminal {α : Type} (ik tk : String) (hik : ik ≠ "") (htk : tk ≠ "")
    (p : PageResponse α)
    (hwf : (pageItems ik p).isSome = true)
    (hstop : pageEnds tk p = true) :
    iterate_paginated_results (some ik) (some tk) [p]
      = .ok ((pageItems ik p).getD []) := by
  cases p with
  | nonDict => simp [pageItems] at hwf
  | dict entries =>
    cases hgi : dictGet entries ik with
    | none =>
      cases hgt : dictGet entries tk with
      | none =>
        simp only [iterate_paginated_results,
          inferNextTokenKey_supplied _ tk htk, inferItemsKey_supplied _ ik hik,
          falsyKey_some_of_ne tk htk, falsyKey_some_of_ne ik hik,
          Bool.false_eq_true, if_false, Option.getD_some, hgi, hgt]
        simp [pageItems, hgi]
      | some v =>
        cases v with
        | vNull =>
          simp only [iterate_paginated_results,
            inferNextTokenKey_supplied _ tk htk, inferItemsKey_supplied _ ik hik,
            falsyKey_some_of_ne tk htk, falsyKey_some_of_ne ik hik,
            Bool.false_eq_true, if_false, Option.getD_some, hgi, hgt]
          simp [pageItems, hgi]
        | vStr s => simp [pageEnds, hgt] at hstop
        | vList ys => simp [pageEnds, hgt] at hstop
    | some v =>
      cases v with
      | vNull => simp [pageItems, hgi] at hwf
      | vStr s => simp [pageItems, hgi] at hwf
      | vList xs =>
        cases hgt : dictGet entries tk with
        | none =>
          simp only [iterate_paginated_results,
            inferNextTokenKey_supplied _ tk htk, inferItemsKey_supplied _ ik hik,
            falsyKey_some_of_ne tk htk, falsyKey_some_of_ne ik hik,
            Bool.false_eq_true, if_false, Option.getD_some, hgi, hgt]
          simp [pageItems, hgi]
        | some w =>
          cases w with
          | vNull =>
            simp only [iterate_paginated_results,
              inferNextTokenKey_supplied _ tk htk, inferItemsKey_supplied _ ik hik,
              falsyKey_some_of_ne tk htk, falsyKey_some_of_ne ik hik,
              Bool.false_eq_true, if_false, Option.getD_some, hgi, hgt]
            simp [pageItems, hgi]
          | vStr s => simp [pageEnds, hgt] at hstop
          | vList zs => simp [pageEnds, hgt] at hstop

/-- C1: with items_key and next_token_key supplied, the pagination loop run
over a trace of dict pages whose items values are lists yields exactly the
concatenation of the pages' items lists in page order, ending with the
first page whose cursor key is absent or null; and over a trace in which no
page ends the iteration (every cursor value is a non-null value) the loop
never terminates normally, asking for a page beyond the trace. -/
theorem iterate_paginated_yields_concatenation {α : Type} (ik tk : String)
    (hik : ik ≠ "") (htk : tk ≠ "")
    (front : List (PageResponse α)) (last : PageResponse α)
    (hwf : ∀ p ∈ front ++ [last], (pageItems ik p).isSome = true)
    (hcont : ∀ p ∈ front, pageEnds tk p = false)
    (hstop : pageEnds tk last = true) :
    iterate_paginated_results (some ik) (some tk) (front ++ [last])
      = .ok (((front ++ [last]).map (fun p => (pageItems ik p).getD [])).flatten)
    ∧ ∀ pages : List (PageResponse α),
        (∀ p ∈ pages, (pageItems ik p).isSome = true ∧ pageEnds tk p = false) →
        iterate_paginated_results (some ik) (some tk) pages = .error .outOfPages := by
  constructor
  · rw [iterate_append ik tk hik htk front [last]
      (fun p hp => hwf p (by simp [hp])) hcont]
    rw [iterate_single_terminal ik tk hik htk last (hwf last (by simp)) hstop]
    simp [Except.map]
  · intro pages hpages
    have h := iterate_append ik tk hik htk pages []
      (fun p hp => (hpages p hp).1) (fun p hp => (hpages p hp).2)
    rw [List.append_nil] at h
    rw [h]
    rfl

/-- Closed instance of the C1 theorem: a two-page trace yields the items of
both pages in order, and a trace of pages that always carry a cursor value
runs off the end of the trace. -/
theorem iterate_paginated_yields_concatenation_witness :
    iterate_paginated_results (α := Nat) (some "data") (some "next_page_token")
      [PageResponse.dict [("data", PageVal.vList [1, 2]), ("next_page_token", PageVal.vStr "t")],
       PageResponse.dict [("data", PageVal.vList [3]), ("next_page_token", PageVal.vNull)]]
      = .ok [1, 2, 3]
    ∧ iterate_paginated_results (α := Nat) (some "data") (some "next_page_token")
      [PageResponse.dict [("data", PageVal.vList [1, 2]), ("next_page_token", PageVal.vStr "t")]]
      = .error .outOfPages := by
  have h := iterate_paginated_yields_concatenation (α := Nat) "data" "next_page_token"
    (by decide) (by decide)
    [PageResponse.dict [("data", PageVal.vList [1, 2]), ("next_page_token", PageVal.vStr "t")]]
    (PageResponse.dict [("data", PageVal.vList [3]), ("next_page_token", PageVal.vNull)])
    (by decide) (by decide) (by decide)
  exact ⟨h.1, h.2 _ (by decide)⟩

/-- C10: when a page response is not a dictionary, the loop terminates
silently at that point: no error is raised, the items of the earlier pages
stand, and nothing further is yielded. -/
theorem iterate_paginated_nondict_silent_stop {α : Type} (ik tk : String)
    (hik : ik ≠ "") (htk : tk ≠ "")
    (front : List (PageResponse α))
    (hwf : ∀ p ∈ front, (pageItems ik p).isSome = true)
    (hcont : ∀ p ∈ front, pageEnds tk p = false) :
    iterate_paginated_results (some ik) (some tk) (front ++ [PageResponse.nonDict])
      = .ok ((front.map (fun p => (pageItems ik p).getD [])).flatten) := by
  rw [iterate_append ik tk hik htk front [PageResponse.nonDict] hwf hcont]
  simp [iterate_paginated_results, Except.map]

/-- Closed instance of the C10 theorem: a good first page followed by a
non-dict response produces the first page's items with no error. -/
theorem iterate_paginated_nondict_silent_stop_witness :
    iterate_paginated_results (α := Nat) (some "data") (some "next_page_token")
      [PageResponse.dict [("data", PageVal.vList [7, 8]), ("next_page_token", PageVal.vStr "t")],
       PageResponse.nonDict]
      = .ok [7, 8] := by
  have h := iterate_paginated_nondict_silent_stop (α := Nat) "data" "next_page_token"
    (by decide) (by decide)
    [PageResponse.dict [("data", PageVal.vList [7, 8]), ("next_page_token", PageVal.vStr "t")]]
    (by decide) (by decide)
  exact h

theorem containsTokenSubstring_ne_empty (k : String)
    (h : containsTokenSubstring k = true) : k ≠ "" := by
  intro hk
  subst hk
  exact absurd h (by decide)

theorem inferNextTokenKey_falsy (keys : List String) (tk : Option String)
    (h1 : falsyKey tk = true)
    (h2 : (keys.filter containsTokenSubstring).length ≠ 1) :
    falsyKey (inferNextTokenKey keys tk) = true := by
  by_cases hk : keys.isEmpty
  · simp [inferNextTokenKey, hk, h1]
  · cases hf : keys.filter containsTokenSubstring with
    | nil => simp [inferNextTokenKey, hk, h1, hf]
    | cons a l =>
      cases l with
      | nil => exact absurd (by simp [hf]) h2
      | cons b m => simp [inferNextTokenKey, hk, h1, hf]

theorem inferItemsKey_falsy (keys : List String) (ik : Option String)
    (h1 : falsyKey ik = true)
    (h2 : keys.length ≠ 2 ∨
      (keys.filter (fun s => !containsTokenSubstring s)).length ≠ 1 ∨
      keys.filter (fun s => !containsTokenSubstring s) = [""]) :
    falsyKey (inferItemsKey keys ik) = true := by
  by_cases hl : keys.length = 2
  · cases hf : keys.filter (fun s => !containsTokenSubstring s) with
    | nil => simp [inferItemsKey, hl, h1, hf]
    | cons a l =>
      cases l with
      | nil =>
        rcases h2 with h2 | h2 | h2
        · exact absurd hl h2
        · exact absurd (by simp [hf]) h2
        · rw [hf] at h2
          obtain rfl : a = "" := by simpa using h2
          have hi : inferItemsKey keys ik = some "" := by
            simp [inferItemsKey, hl, h1, hf]
          rw [hi]
          rfl
      | cons b m => simp [inferItemsKey, hl, h1, hf]
  · simp [inferItemsKey, hl, h1]

theorem iterate_cons_dict_tokenFalsy {α : Type}
    (entries : List (String × PageVal α)) (rest : List (PageResponse α))
    (items_key next_token_key : Option String)
    (h : falsyKey (inferNextTokenKey (entries.map Prod.fst) next_token_key) = true) :
    iterate_paginated_results items_key next_token_key (PageResponse.dict entries :: rest)
      = .error .inferError := by
  simp [iterate_paginated_results, h]

theorem iterate_cons_dict_itemsFalsy {α : Type}
    (entries : List (String × PageVal α)) (rest : List (PageResponse α))
    (items_key next_token_key : Option String)
    (h1 : falsyKey (inferNextTokenKey (entries.map Prod.fst) next_token_key) = false)
    (h2 : falsyKey (inferItemsKey (entries.map Prod.fst) items_key) = true) :
    iterate_paginated_results items_key next_token_key (PageResponse.dict entries :: rest)
      = .error .inferError := by
  simp [iterate_paginated_results, h1, h2]

theorem inferNextTokenKey_infers (keys : List String) (tk : Option String) (k : String)
    (h1 : falsyKey tk = true)
    (hk : keys.filter containsTokenSubstring = [k]) :
    inferNextTokenKey keys tk = some k := by
  cases keys with
  | nil => simp at hk
  | cons a l => simp [inferNextTokenKey, h1, hk]

theorem inferItemsKey_infers (keys : List String) (ik : Option String) (j : String)
    (h1 : falsyKey ik = true) (hl : keys.length = 2)
    (hj : keys.filter (fun s => !containsTokenSubstring s) = [j]) :
    inferItemsKey keys ik = some j := by
  simp [inferItemsKey, h1, hl, hj]

/-- C5 counterexample: next_token_key is supplied as cursor and items_key is
not supplied; the response has exactly the two keys cursor and items, so the
unique key other than the cursor key is items, yet the iterator raises a
ValueError instead of inferring items as the items key and yielding the
page (the code infers the items key only from the substring token, and here
neither key contains it, so the candidate set has two entries). -/
theorem iterate_items_key_inference_counterexample :
    iterate_paginated_results (α := Nat) none (some "cursor")
        [PageResponse.dict [("cursor", PageVal.vNull), ("items", PageVal.vList [1, 2])]]
      = .error .inferError
    ∧ ["cursor", "items"].filter (fun s => s ≠ "cursor") = ["items"] :=
  ⟨rfl, by decide⟩

/-- C5 amended: when next_token_key is falsy it is inferred as the unique
response key containing the substring token, a ValueError being raised when
the number of such keys is not exactly one; when items_key is falsy it is
inferred only if the response has exactly two keys and exactly one of them
does not contain the substring token (the items key is that one key, not
the key remaining after removing the cursor key), a ValueError being raised
otherwise, in particular also when the inferred key is the empty string;
and when both inferences succeed the iteration proceeds exactly as if the
inferred keys had been supplied. -/
theorem iterate_key_inference_amended {α : Type}
    (entries : List (String × PageVal α)) (rest : List (PageResponse α))
    (items_key next_token_key : Option String) :
    (falsyKey next_token_key = true →
      ((entries.map Prod.fst).filter containsTokenSubstring).length ≠ 1 →
      iterate_paginated_results items_key next_token_key (PageResponse.dict entries :: rest)
        = .error .inferError)
    ∧ (falsyKey (inferNextTokenKey (entries.map Prod.fst) next_token_key) = false →
      falsyKey items_key = true →
      ((entries.map Prod.fst).length ≠ 2 ∨
        ((entries.map Prod.fst).filter (fun s => !containsTokenSubstring s)).length ≠ 1 ∨
        (entries.map Prod.fst).filter (fun s => !containsTokenSubstring s) = [""]) →
      iterate_paginated_results items_key next_token_key (PageResponse.dict entries :: rest)
        = .error .inferError)
    ∧ (∀ k j : String, falsyKey next_token_key = true → falsyKey items_key = true →
      (entries.map Prod.fst).filter containsTokenSubstring = [k] →
      (entries.map Prod.fst).filter (fun s => !containsTokenSubstring s) = [j] →
      (entries.map Prod.fst).length = 2 → j ≠ "" →
      iterate_paginated_results items_key next_token_key (PageResponse.dict entries :: rest)
        = iterate_paginated_results (some j) (some k) (PageResponse.dict entries :: rest)) := by
  refine ⟨?_, ?_, ?_⟩
  · intro h1 h2
    exact iterate_cons_dict_tokenFalsy entries rest items_key next_token_key
      (inferNextTokenKey_falsy _ _ h1 h2)
  · intro h1 h2 h3
    exact iterate_cons_dict_itemsFalsy entries rest items_key next_token_key h1
      (inferItemsKey_falsy _ _ h2 h3)
  · intro k j htkf hikf hk hj hl hjne
    have hkmem : containsTokenSubstring k = true := by
      have hmem : k ∈ (entries.map Prod.fst).filter containsTokenSubstring := by
        rw [hk]
        exact List.mem_singleton_self k
      exact (List.mem_filter.mp hmem).2
    have hkne : k ≠ "" := containsTokenSubstring_ne_empty k hkmem
    have htk1 : inferNextTokenKey (entries.map Prod.fst) next_token_key = some k :=
      inferNextTokenKey_infers _ _ _ htkf hk
    have hik1 : inferItemsKey (entries.map Prod.fst) items_key = some j :=
      inferItemsKey_infers _ _ _ hikf hl hj
    simp only [iterate_paginated_results, htk1, hik1,
      inferNextTokenKey_supplied _ k hkne, inferItemsKey_supplied _ j hjne]

/-- Closed instance of the amended C5 theorem: with no keys supplied and a
two-key response whose unique token-containing key is next_page_token, the
iteration behaves exactly as with the keys items and next_page_token
supplied (and in particular yields the page's items). -/
theorem iterate_key_inference_amended_witness :
    iterate_paginated_results (α := Nat) none none
        [PageResponse.dict [("items", PageVal.vList [5]), ("next_page_token", PageVal.vNull)]]
      = iterate_paginated_results (α := Nat) (some "items") (some "next_page_token")
        [PageResponse.dict [("items", PageVal.vList [5]), ("next_page_token", PageVal.vNull)]]
    ∧ iterate_paginated_results (α := Nat) none none
        [PageResponse.dict [("items", PageVal.vList [5]), ("next_page_token", PageVal.vNull)]]
      = .ok [5] := by
  have h := (iterate_key_inference_amended (α := Nat)
    [("items", PageVal.vList [5]), ("next_page_token", PageVal.vNull)] [] none none).2.2
    "next_page_token" "items" rfl rfl (by decide) (by decide) (by decide) (by decide)
  exact ⟨h, rfl⟩

/-- State of a VerkadaTokenManager (api_tokens.py lines 13-43): the cached
token and its expiry instant (absolute seconds), the configured lifetime in
minutes, and the refresh buffer, set by the constructor to 25 minutes
(1500 seconds). -/
structure VerkadaTokenManager where
  token : Option String
  tokenExpiry : Option Int
  tokenLifetimeMinutes : Int
  refreshBufferSeconds : Int
  deriving DecidableEq, Repr

/-- The fresh-token state of a manager as produced by the fetch path of
get_token: _fetch_new_token (api_tokens.py lines 45-89) returns the token
value found in the HTTP response together with a client-side expiry of
now plus the configured lifetime, and get_token stores both. -/
def fetch_new_token (m : VerkadaTokenManager) (now : Int) (responseToken : String) :
    String × Int :=
  (responseToken, now + m.tokenLifetimeMinutes * 60)

/-- get_token (api_tokens.py lines 91-118) at instant now, where
responseToken is the token value the auth endpoint would return if a fetch
happens. Returns the token handed to the caller, the new manager state, and
the number of fetches performed (0 or 1). The cached token is used only
when it is truthy (Python: a non-empty string) and its expiry is more than
refreshBufferSeconds away; otherwise a fetch happens and the new token and
expiry are cached. -/
def get_token (m : VerkadaTokenManager) (now : Int) (responseToken : String) :
    String × VerkadaTokenManager × Nat :=
  match m.token, m.tokenExpiry with
  | some t, some exp =>
    if t ≠ "" then
      if exp - now > m.refreshBufferSeconds then (t, m, 0)
      else
        let f := fetch_new_token m now responseToken
        (f.1, { m with token := some f.1, tokenExpiry := some f.2 }, 1)
    else
      let f := fetch_new_token m now responseToken
      (f.1, { m with token := some f.1, tokenExpiry := some f.2 }, 1)
  | _, _ =>
    let f := fetch_new_token m now responseToken
    (f.1, { m with token := some f.1, tokenExpiry := some f.2 }, 1)

/-- C2 counterexample: a manager holding the cached token value given by an
empty string, far from expiry (10000 seconds left against a 1500 second
buffer), still performs a fetch and returns the fetched value instead of
the cached one, because Python truthiness treats the empty string as no
token at all. -/
theorem get_token_cached_empty_counterexample :
    ((10000 : Int) - 0 > 1500)
    ∧ get_token { token := some "", tokenExpiry := some 10000,
                  tokenLifetimeMinutes := 30, refreshBufferSeconds := 1500 } 0 "fresh"
      = ("fresh", { token := some "fresh", tokenExpiry := some 1800,
                    tokenLifetimeMinutes := 30, refreshBufferSeconds := 1500 }, 1) :=
  ⟨by decide, rfl⟩

/-- C2 amended: when a non-empty token is cached and its expiry is more
than the refresh buffer away, get_token returns the cached value, leaves
the state unchanged and performs zero fetches (so repeated calls while the
condition holds return the same value with zero fetches); when no token is
cached, the cached token is the empty string, no expiry is cached, or the
time until expiry is at most the buffer, get_token performs exactly one
fetch, caches the fetched token and its client-side expiry, and returns the
fetched token. -/
theorem get_token_cache_behavior (m : VerkadaTokenManager) (now now2 : Int)
    (fresh fresh2 : String) :
    (∀ t exp, m.token = some t → t ≠ "" → m.tokenExpiry = some exp →
      exp - now > m.refreshBufferSeconds →
      get_token m now fresh = (t, m, 0))
    ∧ ((m.token = none ∨ m.token = some "" ∨ m.tokenExpiry = none ∨
        (∃ exp, m.tokenExpiry = some exp ∧ exp - now ≤ m.refreshBufferSeconds)) →
      get_token m now fresh
        = (fresh, { m with
            token := some fresh,
            tokenExpiry := some (now + m.tokenLifetimeMinutes * 60) }, 1))
    ∧ (∀ t exp, m.token = some t → t ≠ "" → m.tokenExpiry = some exp →
      exp - now > m.refreshBufferSeconds → exp - now2 > m.refreshBufferSeconds →
      get_token (get_token m now fresh).2.1 now2 fresh2 = (t, m, 0)) := by
  refine ⟨?_, ?_, ?_⟩
  · intro t exp ht hne hexp hgt
    simp [get_token, ht, hexp, hne, hgt]
  · intro h
    rcases h with h | h | h | ⟨exp, hexp, hle⟩
    · cases hexp2 : m.tokenExpiry <;> simp [get_token, h, hexp2, fetch_new_token]
    · cases hexp2 : m.tokenExpiry <;> simp [get_token, h, hexp2, fetch_new_token]
    · cases htok : m.token <;> simp [get_token, h, htok, fetch_new_token]
    · cases htok : m.token with
      | none => simp [get_token, htok, hexp, fetch_new_token]
      | some t =>
        by_cases hne : t = ""
        · simp [get_token, htok, hexp, hne, fetch_new_token]
        · simp [get_token, htok, hexp, hne, fetch_new_token, not_lt.mpr hle]
  · intro t exp ht hne hexp hgt hgt2
    have h1 : get_token m now fresh = (t, m, 0) := by
      simp [get_token, ht, hexp, hne, hgt]
    rw [h1]
    simp [get_token, ht, hexp, hne, hgt2]

/-- Closed instance of the amended C2 theorem: a manager with the cached
token tok and 10000 seconds until expiry returns tok with zero fetches
twice in a row, and a manager whose token is within the buffer fetches
exactly once and caches the fetched token. -/
theorem get_token_cache_behavior_witness :
    get_token { token := some "tok", tokenExpiry := some 10000,
                tokenLifetimeMinutes := 30, refreshBufferSeconds := 1500 } 0 "fresh"
      = ("tok", { token := some "tok", tokenExpiry := some 10000,
                  tokenLifetimeMinutes := 30, refreshBufferSeconds := 1500 }, 0)
    ∧ get_token { token := some "tok", tokenExpiry := some 1000,
                  tokenLifetimeMinutes := 30, refreshBufferSeconds := 1500 } 0 "fresh"
      = ("fresh", { token := some "fresh", tokenExpiry := some 1800,
                    tokenLifetimeMinutes := 30, refreshBufferSeconds := 1500 }, 1) := by
  constructor
  · exact (get_token_cache_behavior
      { token := some "tok", tokenExpiry := some 10000,
        tokenLifetimeMinutes := 30, refreshBufferSeconds := 1500 } 0 0 "fresh" "fresh").1
      "tok" 10000 rfl (by decide) rfl (by decide)
  · exact (get_token_cache_behavior
      { token := some "tok", tokenExpiry := some 1000,
        tokenLifetimeMinutes := 30, refreshBufferSeconds := 1500 } 0 0 "fresh" "fresh").2.1
      (Or.inr (Or.inr (Or.inr ⟨1000, rfl, by decide⟩)))

/-- Default headers built by VerkadaRequestManager.get_default_headers
(verkada_requests.py lines 169-179), with the auth token obtained from the
token manager passed in as a value. -/
def get_default_headers (token : String) : List (String × String) :=
  [("accept", "application/json"),
   ("content-type", "application/json"),
   ("x-verkada-auth", token)]

/-- The headers _send_request sends (verkada_requests.py lines 85-90): the
default headers merged with the caller-supplied headers, caller keys
overriding, then the auth header is added if absent after the merge. The
files argument is forwarded to the HTTP call but never consulted while the
headers are built, mirroring the source, where no branch removes any
header when file attachments are present. -/
def send_request_headers (token : String) (headers : Option (List (String × String)))
    (files : Bool) : List (String × String) :=
  let merged := dictMerge (get_default_headers token)
    (match headers with | none => [] | some h => h)
  if (dictGet merged "x-verkada-auth").isNone then
    dictInsert merged "x-verkada-auth" token
  else merged

/-- C3: contrary to the specification, a request carrying multipart file
attachments is sent with the default content-type of application/json: both
with no caller headers and with the exact caller headers that
upload_profile_photo supplies (accept and the auth header only, the
comment there saying content-type must not be included so that the client
can set the multipart boundary), the merged headers still map content-type
to application/json, because the merge with the defaults reinstates it and
no code path removes it when files are present. -/
theorem send_request_headers_keep_content_type_on_multipart :
    dictGet (send_request_headers "tok" none true) "content-type"
      = some "application/json"
    ∧ dictGet (send_request_headers "tok"
        (some [("accept", "application/json"), ("x-verkada-auth", "tok")]) true)
        "content-type"
      = some "application/json" :=
  ⟨rfl, rfl⟩

/-- remove_null_fields (helpers.py lines 193-199): drops the entries of a
dict whose value is None; the surviving values are unwrapped. -/
def remove_null_fields (obj : List (String × Option String)) : List (String × String) :=
  obj.filterMap (fun p => p.2.map (fun v => (p.1, v)))

/-- check_user_external_id (helpers.py lines 219-236): raises a ValueError
when neither or both identifiers are provided; otherwise returns the dict
built from user_id and external_id with the null entry removed. -/
def check_user_external_id (user_id external_id : Option String) :
    Except String (List (String × String)) :=
  if (user_id.isNone && external_id.isNone) || (user_id.isSome && external_id.isSome) then
    .error "Exactly one of user_id or external_id must be provided, not both or neither."
  else
    .ok (remove_null_fields [("user_id", user_id), ("external_id", external_id)])

/-- delete_access_card (access_credentials.py lines 10-26), modelled up to
the request parameters it sends: an empty card_id raises, the identifier
pair is validated by check_user_external_id, and card_id is added to the
resulting params dict. -/
def delete_access_card (card_id : String) (user_id external_id : Option String) :
    Except String (List (String × String)) :=
  if card_id = "" then .error "card_id must be a non-empty string"
  else
    (check_user_external_id user_id external_id).map
      (fun params => dictInsert params "card_id" card_id)

/-- C6: check_user_external_id raises exactly when both identifiers are
None or both are non-None; with exactly one identifier provided it returns
a params dict containing exactly that one key bound to the provided value;
and delete_access_card forwards that single key together with card_id. -/
theorem check_user_external_id_exclusive (user_id external_id : Option String) :
    ((check_user_external_id user_id external_id).isOk = false ↔
      ((user_id = none ∧ external_id = none) ∨
        (user_id.isSome = true ∧ external_id.isSome = true)))
    ∧ (∀ u, user_id = some u → external_id = none →
        check_user_external_id user_id external_id = .ok [("user_id", u)])
    ∧ (∀ e, user_id = none → external_id = some e →
        check_user_external_id user_id external_id = .ok [("external_id", e)])
    ∧ (∀ u cid, cid ≠ "" → user_id = some u → external_id = none →
        delete_access_card cid user_id external_id
          = .ok [("user_id", u), ("card_id", cid)]) := by
  refine ⟨?_, ?_, ?_, ?_⟩
  · cases user_id <;> cases external_id <;>
      simp [check_user_external_id, remove_null_fields, Except.isOk, Except.toBool]
  · rintro u rfl rfl
    simp [check_user_external_id, remove_null_fields]
  · rintro e rfl rfl
    simp [check_user_external_id, remove_null_fields]
  · rintro u cid hcid rfl rfl
    simp [delete_access_card, hcid, check_user_external_id, remove_null_fields,
      Except.map, dictInsert]

/-- Closed instance of the C6 theorem: both identifiers rejected, a single
identifier accepted and forwarded as the single correct key, and
delete_access_card forwarding user_id plus card_id. -/
theorem check_user_external_id_exclusive_witness :
    (check_user_external_id (some "u1") (some "e1")).isOk = false
    ∧ check_user_external_id (some "u1") none = .ok [("user_id", "u1")]
    ∧ check_user_external_id none (some "e1") = .ok [("external_id", "e1")]
    ∧ delete_access_card "c1" (some "u1") none
      = .ok [("user_id", "u1"), ("card_id", "c1")] := by
  refine ⟨?_, ?_, ?_, ?_⟩
  · exact (check_user_external_id_exclusive (some "u1") (some "e1")).1.mpr
      (Or.inr ⟨rfl, rfl⟩)
  · exact (check_user_external_id_exclusive (some "u1") none).2.1 "u1" rfl rfl
  · exact (check_user_external_id_exclusive none (some "e1")).2.2.1 "e1" rfl rfl
  · exact (check_user_external_id_exclusive (some "u1") none).2.2.2 "u1" "c1"
      (by decide) rfl rfl

/-- A JSON payload value sent in a request body: a boolean, a string, or
null (Python None, which the payload builders may keep). -/
inductive PayloadVal where
  | pBool (b : Bool) : PayloadVal
  | pStr (s : String) : PayloadVal
  | pNone : PayloadVal
  deriving DecidableEq, Repr

/-- add_card_to_user (access_credentials.py lines 30-77), modelled up to
the request it sends: the identifier pair is validated first, then exactly
one of the three card number forms must be non-None, and the JSON payload
holds active, facility_code and type plus the one provided card number key.
Returns the query params and the JSON payload of the request. -/
def add_card_to_user (user_id external_id : Option String) (active : Option Bool)
    (card_number card_number_hex card_number_base36 : Option String)
    (facility_code card_type : String) :
    Except String (List (String × String) × List (String × PayloadVal)) :=
  match check_user_external_id user_id external_id with
  | .error e => .error e
  | .ok params =>
    if ([card_number, card_number_hex, card_number_base36].countP Option.isSome) ≠ 1 then
      .error "Exactly one of card_number, card_number_hex, or card_number_base36 must be provided."
    else
      let payload : List (String × PayloadVal) :=
        [("active", match active with | some b => PayloadVal.pBool b | none => PayloadVal.pNone),
         ("facility_code", PayloadVal.pStr facility_code),
         ("type", PayloadVal.pStr card_type)]
      let payload :=
        match card_number with
        | some n => dictInsert payload "card_number" (PayloadVal.pStr n)
        | none =>
          match card_number_hex with
          | some n => dictInsert payload "card_number_hex" (PayloadVal.pStr n)
          | none =>
            match card_number_base36 with
            | some n => dictInsert payload "card_number_base36" (PayloadVal.pStr n)
            | none => payload
      .ok (params, payload)

/-- C7: when the number of supplied card number forms is not exactly one,
add_card_to_user fails before any request is made; when the call succeeds
the payload keys are exactly active, facility_code, type and the one
supplied card number key, in that order. -/
theorem add_card_to_user_payload_keys (user_id external_id : Option String)
    (active : Option Bool) (card_number card_number_hex card_number_base36 : Option String)
    (facility_code card_type : String) :
    (([card_number, card_number_hex, card_number_base36].countP Option.isSome) ≠ 1 →
      (add_card_to_user user_id external_id active card_number card_number_hex
        card_number_base36 facility_code card_type).isOk = false)
    ∧ (∀ r, add_card_to_user user_id external_id active card_number card_number_hex
        card_number_base36 facility_code card_type = .ok r →
      r.2.map Prod.fst
        = ["active", "facility_code", "type"] ++
          (if card_number.isSome then ["card_number"]
           else if card_number_hex.isSome then ["card_number_hex"]
           else ["card_number_base36"])) := by
  constructor
  · intro h
    cases hc : check_user_external_id user_id external_id <;>
      simp [add_card_to_user, hc, h, Except.isOk, Except.toBool]
  · intro r hr
    rw [add_card_to_user.eq_def] at hr
    split at hr
    · cases hr
    · split at hr
      · cases hr
      · rename_i hcount
        cases card_number with
        | some n =>
          injection hr with hr
          subst hr
          simp [dictInsert]
        | none =>
          cases card_number_hex with
          | some n =>
            injection hr with hr
            subst hr
            simp [dictInsert]
          | none =>
            cases card_number_base36 with
            | some n =>
              injection hr with hr
              subst hr
              simp [dictInsert]
            | none => simp at hcount

/-- Closed instance of the C7 theorem: two card forms at once are rejected,
and a call with only card_number_hex produces a payload with exactly the
keys active, facility_code, type, card_number_hex. -/
theorem add_card_to_user_payload_keys_witness :
    (add_card_to_user (some "u1") none (some false) (some "123") (some "7B") none
      "100" "HID 37-bit").isOk = false
    ∧ ((add_card_to_user (some "u1") none (some false) none (some "7B") none
        "100" "HID 37-bit" = .ok ([("user_id", "u1")],
          [("active", PayloadVal.pBool false), ("facility_code", PayloadVal.pStr "100"),
           ("type", PayloadVal.pStr "HID 37-bit"), ("card_number_hex", PayloadVal.pStr "7B")]))
      ∧ [("active", PayloadVal.pBool false), ("facility_code", PayloadVal.pStr "100"),
         ("type", PayloadVal.pStr "HID 37-bit"),
         ("card_number_hex", PayloadVal.pStr "7B")].map Prod.fst
        = ["active", "facility_code", "type", "card_number_hex"]) := by
  refine ⟨?_, rfl, ?_⟩
  · exact (add_card_to_user_payload_keys (some "u1") none (some false) (some "123")
      (some "7B") none "100" "HID 37-bit").1 (by decide)
  · exact ((add_card_to_user_payload_keys (some "u1") none (some false) none
      (some "7B") none "100" "HID 37-bit").2 _ rfl).trans (by rfl)

/-- The values of VALID_ACCESS_EVENT_TYPES_ENUM (helpers.py lines 59-120),
in source order. -/
def VALID_ACCESS_EVENT_TYPES : List String :=
  ["door_opened", "door_rejected", "door_granted", "door_forced_open",
   "door_held_open", "door_tailgating", "door_crowd_detection", "door_tamper",
   "door_poi_detection", "door_initialized", "door_armed",
   "door_armed_button_pressed", "door_aux_unlock", "door_locked",
   "door_unlocked", "door_unarmed_event", "door_code_entered_event",
   "door_button_press_entered_event", "door_acu_startup",
   "door_lock_state_changed", "door_lockdown", "door_auxinput_change_state",
   "door_auxinput_held", "door_low_battery", "door_critical_battery",
   "door_mobile_nfc_scan_accepted", "door_mobile_nfc_scan_rejected",
   "door_user_database_corrupt", "door_keycard_entered_accepted",
   "door_keycard_entered_rejected", "door_code_entered_accepted",
   "door_code_entered_rejected", "door_remote_unlock_accepted",
   "door_remote_unlock_rejected", "door_press_to_exit_accepted",
   "door_ble_unlock_attempt_accepted", "door_ble_unlock_attempt_rejected",
   "door_acu_offline", "door_fire_alarm_triggered", "door_fire_alarm_released",
   "door_acu_fire_alarm_triggered", "door_acu_fire_alarm_released",
   "door_schedule_toggle", "door_acu_dpi_cut", "door_acu_dpi_short",
   "door_acu_rex_cut", "door_acu_rex_short", "door_acu_rex2_cut",
   "door_acu_rex2_short", "door_acu_auxinput_cut", "door_acu_auxinput_short",
   "door_lockdown_debounced", "door_lp_presented_accepted",
   "door_lp_presented_rejected", "door_apb_double_entry",
   "door_apb_double_exit", "all_access_granted", "all_access_rejected",
   "door_auxoutput_activated", "door_auxoutput_deactivated"]

/-- A query-parameter value: an integer or a string. -/
inductive ParamVal where
  | pInt (n : Int) : ParamVal
  | pStr (s : String) : ParamVal
  deriving DecidableEq, Repr

/-- get_access_events (access_events.py lines 11-67), modelled up to the
query params of the request it sends, with the current Unix time passed in
as now. Defaults: start_time falls back to one hour before now and
end_time to now; a truthy event_type list must be a subset of the valid
event types (the numpy set difference is modelled by filtering the invalid
entries, the error condition being its non-emptiness); page_size, when not
None, must lie within 0 and 200; finally the params dict is built and the
None entries are removed. -/
def get_access_events (now : Int) (start_time end_time : Option Int)
    (page_token : Option String) (page_size : Option Int)
    (event_type : Option (List String)) (site_id device_id user_id : Option String) :
    Except String (List (String × ParamVal)) :=
  let start_time := match start_time with | none => now - 3600 | some s => s
  let end_time := match end_time with | none => now | some e => e
  let eventTruthy : Bool := match event_type with | some (_ :: _) => true | _ => false
  if eventTruthy &&
      !((event_type.getD []).filter (fun v => !(VALID_ACCESS_EVENT_TYPES.contains v))).isEmpty then
    .error "Event types are not in the list of valid event types"
  else if (match page_size with | some ps => ps < 0 || ps > 200 | none => false) then
    .error "page_size must be between 0 and 200"
  else
    .ok ([("start_time", some (ParamVal.pInt start_time)),
          ("end_time", some (ParamVal.pInt end_time)),
          ("page_token", page_token.map ParamVal.pStr),
          ("page_size", page_size.map ParamVal.pInt),
          ("event_type", if eventTruthy then
             some (ParamVal.pStr (String.intercalate "," (event_type.getD []))) else none),
          ("site_id", site_id.map ParamVal.pStr),
          ("device_id", device_id.map ParamVal.pStr),
          ("user_id", user_id.map ParamVal.pStr)].filterMap
            (fun p => p.2.map (fun v => (p.1, v))))

/-- C8: whenever get_access_events is called with start_time and end_time
both None and the request is actually sent (no validation error), the
params sent carry start_time equal to now minus 3600 and end_time equal to
now. -/
theorem get_access_events_default_time_range (now : Int)
    (page_token : Option String) (page_size : Option Int)
    (event_type : Option (List String)) (site_id device_id user_id : Option String)
    (params : List (String × ParamVal))
    (h : get_access_events now none none page_token page_size event_type
      site_id device_id user_id = .ok params) :
    dictGet params "start_time" = some (ParamVal.pInt (now - 3600))
    ∧ dictGet params "end_time" = some (ParamVal.pInt now) := by
  unfold get_access_events at h
  dsimp only at h
  split at h
  · cases h
  · split at h
    · cases h
    · injection h with h
      subst h
      exact ⟨rfl, rfl⟩

/-- Closed instance of the C8 theorem at now equal to 5000: the params
carry start_time 1400 and end_time 5000. -/
theorem get_access_events_default_time_range_witness :
    dictGet [("start_time", ParamVal.pInt 1400), ("end_time", ParamVal.pInt 5000),
             ("page_size", ParamVal.pInt 100)] "start_time"
      = some (ParamVal.pInt (5000 - 3600))
    ∧ dictGet [("start_time", ParamVal.pInt 1400), ("end_time", ParamVal.pInt 5000),
               ("page_size", ParamVal.pInt 100)] "end_time"
      = some (ParamVal.pInt 5000) :=
  get_access_events_default_time_range 5000 none (some 100) none none none none
    [("start_time", ParamVal.pInt 1400), ("end_time", ParamVal.pInt 5000),
     ("page_size", ParamVal.pInt 100)] rfl

/-- C9: with the other arguments at their defaults, a call of
get_access_events with an integer page_size succeeds exactly when page_size
lies between 0 and 200 inclusive. -/
theorem get_access_events_page_size_range (now : Int) (ps : Int) :
    (∃ params, get_access_events now none none none (some ps) none none none none
      = .ok params) ↔ (0 ≤ ps ∧ ps ≤ 200) := by
  by_cases hb : ps < 0 ∨ ps > 200
  · have hbb : (ps < 0 || ps > 200) = true := by
      rcases hb with hb | hb <;> simp [hb]
    simp [get_access_events, hbb]
    omega
  · have hbb : (ps < 0 || ps > 200) = false := by
      push_neg at hb
      simp [not_lt.mpr hb.1, not_lt.mpr hb.2]
    simp [get_access_events, hbb]
    omega

/-- Closed instance of the C9 theorem: page sizes 0 and 200 are accepted
while -1 and 201 are rejected. -/
theorem get_access_events_page_size_range_witness :
    (∃ params, get_access_events 5000 none none none (some 0) none none none none
      = .ok params)
    ∧ (∃ params, get_access_events 5000 none none none (some 200) none none none none
      = .ok params)
    ∧ ¬(∃ params, get_access_events 5000 none none none (some (-1)) none none none none
      = .ok params)
    ∧ ¬(∃ params, get_access_events 5000 none none none (some 201) none none none none
      = .ok params) := by
  refine ⟨?_, ?_, ?_, ?_⟩
  · exact (get_access_events_page_size_range 5000 0).mpr (by norm_num)
  · exact (get_access_events_page_size_range 5000 200).mpr (by norm_num)
  · intro h
    have := (get_access_events_page_size_range 5000 (-1)).mp h
    omega
  · intro h
    have := (get_access_events_page_size_range 5000 201).mp h
    omega

/-- A Python value stored in a door-exception or recurrence-rule dict:
None, a string, an integer, a boolean, a list, or a nested dict. -/
inductive ExcVal where
  | eNone : ExcVal
  | eStr (s : String) : ExcVal
  | eInt (n : Int) : ExcVal
  | eBool (b : Bool) : ExcVal
  | eList (xs : List ExcVal) : ExcVal
  | eDict (entries : List (String × ExcVal)) : ExcVal

/-- Python truthiness of a dict value: None, the empty string, zero, False
and empty collections are falsy. -/
def ExcVal.truthy : ExcVal → Bool
  | ExcVal.eNone => false
  | ExcVal.eStr s => !(s == "")
  | ExcVal.eInt n => !(n == 0)
  | ExcVal.eBool b => b
  | ExcVal.eList xs => !xs.isEmpty
  | ExcVal.eDict d => !d.isEmpty

/-- Python isinstance(v, int): booleans count as integers. -/
def ExcVal.isIntInstance : ExcVal → Bool
  | ExcVal.eInt _ => true
  | ExcVal.eBool _ => true
  | _ => false

/-- The integer a value stands for in a comparison (booleans are 1 and 0);
only consulted after isIntInstance holds. -/
def ExcVal.intValue : ExcVal → Int
  | ExcVal.eInt n => n
  | ExcVal.eBool b => if b then 1 else 0
  | _ => 0

/-- is_valid_date (access_door_exceptions.py lines 13-18): the anchored
pattern of four digits, a dash, two digits, a dash and two digits, with
digits modelled as ASCII digits. -/
def is_valid_date (s : String) : Bool :=
  match s.toList with
  | [y1, y2, y3, y4, c1, m1, m2, c2, d1, d2] =>
    y1.isDigit && y2.isDigit && y3.isDigit && y4.isDigit && c1 == '-' &&
    m1.isDigit && m2.isDigit && c2 == '-' && d1.isDigit && d2.isDigit
  | _ => false

/-- is_valid_time (access_door_exceptions.py lines 20-25): the anchored
pattern of an hour 00 to 23 with a required leading zero, a colon, and a
minute 00 to 59. -/
def is_valid_time (s : String) : Bool :=
  match s.toList with
  | [h1, h2, c, m1, m2] =>
    (((h1 == '0' || h1 == '1') && h2.isDigit) ||
      (h1 == '2' && (decide ('0' ≤ h2) && decide (h2 ≤ '3')))) &&
    c == ':' && (decide ('0' ≤ m1) && decide (m1 ≤ '5')) && m2.isDigit
  | _ => false

/-- Python test of whether a string strips to empty: true exactly when all
its characters are whitespace (so also for the empty string). -/
def pyStripEmpty (s : String) : Bool :=
  s.toList.all (fun c => c.isWhitespace)

/-- require_non_empty_str (helpers.py lines 202-216) applied to a dict
value: a non-string value fails (the decorated type check raises for it),
and a string must be non-empty after stripping whitespace. -/
def require_non_empty_str (v : ExcVal) : Except String Unit :=
  match v with
  | ExcVal.eStr s =>
    if pyStripEmpty s then .error "must be a non-empty string" else .ok ()
  | _ => .error "must be a non-empty string"

/-- The values of DOOR_STATUS_ENUM (helpers.py lines 30-35). -/
def DOOR_STATUS_VALUES : List String :=
  ["LOCKED", "CARD_AND_CODE", "ACCESS_CONTROLLED", "UNLOCKED"]

/-- The values of WEEKDAY_ENUM (helpers.py lines 13-21). -/
def WEEKDAY_VALUES : List String := ["SU", "MO", "TU", "WE", "TH", "FR", "SA"]

/-- validate_recurrence_rule (access_door_exceptions.py lines 29-97),
checked in source order: frequency must be a non-empty string, interval an
integer (a Python bool also counts as one), start_time a valid HH:MM time;
then the optional by_day, by_month, by_month_day, by_set_pos,
excluded_dates, until and count fields are validated against the frequency
and one another. -/
def validate_recurrence_rule (rr : List (String × ExcVal)) : Except String Unit := do
  require_non_empty_str ((dictGet rr "frequency").getD (ExcVal.eStr ""))
  let frequency := match dictGet rr "frequency" with | some (ExcVal.eStr s) => s | _ => ""
  if !(match dictGet rr "interval" with
      | some v => v.isIntInstance
      | none => false) then
    throw "interval must be an integer in recurrence_rule"
  require_non_empty_str ((dictGet rr "start_time").getD (ExcVal.eStr ""))
  let start_time := match dictGet rr "start_time" with | some (ExcVal.eStr s) => s | _ => ""
  if !is_valid_time start_time then
    throw "recurrence_rule start_time must be in HH:MM format"
  match dictGet rr "by_day" with
  | none => pure ()
  | some bd => do
    let days : List ExcVal := match bd with | ExcVal.eList xs => xs | _ => []
    if !(match bd with
        | ExcVal.eList xs =>
          xs.all (fun d => match d with
            | ExcVal.eStr s => !(pyStripEmpty s)
            | _ => false)
        | _ => false) then
      throw "by_day must be a list of non-empty strings"
    if frequency == "DAILY" then
      throw "by_day is not supported for DAILY frequency"
    else if frequency == "WEEKLY" then
      (if days.length < 1 then
        throw "by_day must contain at least one value for WEEKLY frequency"
      else pure ())
    else if frequency == "MONTHLY" || frequency == "YEARLY" then do
      if (match dictGet rr "by_set_pos" with
          | none => true
          | some ExcVal.eNone => true
          | some _ => false) then
        throw "for MONTHLY or YEARLY frequency, by_set_pos is required when by_day is provided"
      if days.length ≠ 1 then
        throw "for MONTHLY or YEARLY frequency, by_day must contain exactly one value"
    else pure ()
    if !(days.all (fun d => match d with
        | ExcVal.eStr s => WEEKDAY_VALUES.contains s
        | _ => false)) then
      throw "by_day values must be weekdays"
  match dictGet rr "by_month" with
  | none => pure ()
  | some v =>
    if !(v.isIntInstance && decide (1 ≤ v.intValue) && decide (v.intValue ≤ 12) &&
        frequency == "YEARLY") then
      throw "by_month must be an integer between 1 and 12 and is only supported for YEARLY frequency"
    else pure ()
  match dictGet rr "by_month_day" with
  | none => pure ()
  | some v => do
    if !(frequency == "MONTHLY" || frequency == "YEARLY") then
      throw "by_month_day is only supported for MONTHLY or YEARLY frequency"
    if (dictGet rr "by_set_pos").isSome then
      throw "only one of by_month_day or by_set_pos is allowed"
    if !(v.isIntInstance && decide (1 ≤ v.intValue) && decide (v.intValue ≤ 31)) then
      throw "by_month_day must be an integer between 1 and 31"
  match dictGet rr "by_set_pos" with
  | none => pure ()
  | some v => do
    if !(v.isIntInstance && decide (1 ≤ v.intValue) && decide (v.intValue ≤ 5)) then
      throw "by_set_pos must be an integer between 1 and 5"
    if !(frequency == "MONTHLY" || frequency == "YEARLY") then
      throw "by_set_pos is only supported for MONTHLY or YEARLY frequency"
  match dictGet rr "excluded_dates" with
  | none => pure ()
  | some v =>
    if !(match v with
        | ExcVal.eList xs => xs.all (fun d => match d with
            | ExcVal.eStr s => is_valid_date s
            | _ => false)
        | _ => false) then
      throw "excluded_dates must be a list of valid dates in YYYY-MM-DD format"
    else pure ()
  match dictGet rr "until" with
  | none => pure ()
  | some v =>
    if !(match v with | ExcVal.eStr s => is_valid_date s | _ => false) then
      throw "until must be a valid date in YYYY-MM-DD format"
    else pure ()
  match dictGet rr "count" with
  | none => pure ()
  | some v =>
    if !v.isIntInstance then throw "count must be an integer" else pure ()
  if (dictGet rr "count").isSome && (dictGet rr "until").isSome then
    throw "only one of count or until may be provided in recurrence_rule"

/-- validate_door_exception (access_door_exceptions.py lines 101-162),
checked in source order: date required, non-empty and in YYYY-MM-DD;
door_status required, non-empty and one of the DOOR_STATUS_ENUM values
(all uppercase); the double_badge pairing rules; then for a truthy
all_day_default the door_status must equal the lowercase string
access_controlled and start_time and end_time must be absent, None, empty
or exactly 00:00 and 23:59 respectively, while otherwise both times are
required valid HH:MM strings; then the first_person_in pairing rule and
the optional recurrence rule. -/
def validate_door_exception (exc : List (String × ExcVal)) : Except String Unit := do
  if (dictGet exc "date").isNone then throw "date is required"
  require_non_empty_str ((dictGet exc "date").getD ExcVal.eNone)
  let dateStr := match dictGet exc "date" with | some (ExcVal.eStr s) => s | _ => ""
  if !is_valid_date dateStr then throw "date must be in YYYY-MM-DD format"
  if (dictGet exc "door_status").isNone then throw "door_status is required"
  require_non_empty_str ((dictGet exc "door_status").getD ExcVal.eNone)
  let door_status := match dictGet exc "door_status" with | some (ExcVal.eStr s) => s | _ => ""
  if !(DOOR_STATUS_VALUES.contains door_status) then
    throw "door_status must be one of the door status values"
  if ((dictGet exc "double_badge").getD (ExcVal.eBool false)).truthy then do
    if !(match dictGet exc "double_badge" with
        | some (ExcVal.eBool _) => true
        | _ => false) then
      throw "double_badge must be a boolean"
    if !(match dictGet exc "double_badge_group_ids" with
        | some (ExcVal.eList _) => true
        | _ => false) then
      throw "double_badge_group_ids must be provided as a list when double_badge is True"
  if (dictGet exc "double_badge_group_ids").isSome then
    if !(dictGet exc "double_badge").isSome ||
        ((dictGet exc "double_badge").getD (ExcVal.eBool false)).truthy then
      throw "double_badge must also be set to TRUE if value is provided"
  let all_day := ((dictGet exc "all_day_default").getD (ExcVal.eBool false)).truthy
  if all_day then do
    if !(door_status == "access_controlled") then
      throw "when all_day_default is True, door_status must be access_controlled"
    if (dictGet exc "start_time").isSome &&
        !(match dictGet exc "start_time" with
          | some ExcVal.eNone => true
          | some (ExcVal.eStr s) => s == "" || s == "00:00"
          | _ => false) then
      throw "when all_day_default is True, start_time must be 00:00 or not provided"
    if (dictGet exc "end_time").isSome &&
        !(match dictGet exc "end_time" with
          | some ExcVal.eNone => true
          | some (ExcVal.eStr s) => s == "" || s == "23:59"
          | _ => false) then
      throw "when all_day_default is True, end_time must be 23:59 or not provided"
  else do
    if (dictGet exc "start_time").isNone then
      throw "start_time is required for non all-day exceptions"
    require_non_empty_str ((dictGet exc "start_time").getD ExcVal.eNone)
    let st := match dictGet exc "start_time" with | some (ExcVal.eStr s) => s | _ => ""
    if !is_valid_time st then throw "start_time must be in HH:MM format"
    if (dictGet exc "end_time").isNone then
      throw "end_time is required for non all-day exceptions"
    require_non_empty_str ((dictGet exc "end_time").getD ExcVal.eNone)
    let et := match dictGet exc "end_time" with | some (ExcVal.eStr s) => s | _ => ""
    if !is_valid_time et then throw "end_time must be in HH:MM format"
  if ((dictGet exc "first_person_in").getD (ExcVal.eBool false)).truthy then
    if !(match dictGet exc "first_person_in_group_ids" with
        | some (ExcVal.eList _) => true
        | _ => false) then
      throw "first_person_in_group_ids must be provided as a list when first_person_in is True"
  match dictGet exc "recurrence_rule" with
  | none => pure ()
  | some (ExcVal.eDict rr) => validate_recurrence_rule rr
  | some _ => throw "recurrence_rule must be a dictionary"

/-- C4: the code makes every all-day door exception fail validation. The
door_status enum check (line 122) accepts only the uppercase enum values,
while the all-day branch (line 139) demands the lowercase string
access_controlled, so the two checks cannot both pass: with the uppercase
enum value ACCESS_CONTROLLED the all-day branch rejects, with the lowercase
value the enum check rejects first, and the same object without
all_day_default (and with ordinary times) validates, showing the rejection
comes only from this case mismatch. -/
theorem validate_door_exception_all_day_unsatisfiable :
    validate_door_exception
      [("date", ExcVal.eStr "2025-05-01"),
       ("door_status", ExcVal.eStr "ACCESS_CONTROLLED"),
       ("all_day_default", ExcVal.eBool true)]
      = .error "when all_day_default is True, door_status must be access_controlled"
    ∧ validate_door_exception
      [("date", ExcVal.eStr "2025-05-01"),
       ("door_status", ExcVal.eStr "access_controlled"),
       ("all_day_default", ExcVal.eBool true)]
      = .error "door_status must be one of the door status values"
    ∧ validate_door_exception
      [("date", ExcVal.eStr "2025-05-01"),
       ("door_status", ExcVal.eStr "ACCESS_CONTROLLED"),
       ("start_time", ExcVal.eStr "09:00"),
       ("end_time", ExcVal.eStr "17:00")]
      = .ok () :=
  ⟨rfl, rfl, rfl⟩
